import Mathlib

/-!
Verification development for the Platform Drop anti-cheat score-submission
backend (Cloud Functions: startGameSession, submitScore,
cleanupExpiredSessions).

The embedding models, faithfully to the source:
* Node's `Buffer.from(s)` as the UTF-8 byte list of a string;
* `crypto.createHash('sha256').update(data).digest('hex')` as a full
  executable SHA-256 over those bytes, emitting lowercase hex;
* `crypto.timingSafeEqual`, including its documented behaviour of raising a
  `RangeError` when the two buffers differ in byte length (it only returns a
  boolean on equal-length inputs);
* the Firestore session and leaderboard collections as in-memory association
  lists and entry lists, with persistence failures made explicit through a
  small oracle of success flags (one per awaited write), since any non-HttpsError
  raised inside the handler's try block is caught and resurfaced as `internal`;
* JS numbers as exact rationals (ℚ) and epoch-millisecond times as integers —
  the only numeric operations the handler performs (comparisons, one division
  by 1000, one multiplication by 30, ceil, floor) are exact at the magnitudes
  involved;
* the two `Date.now()` calls inside submitScore as a single `now` parameter.
-/

namespace PlatformDrop

/-! ## Bytes and UTF-8 (model of Node Buffer.from) -/

/-- UTF-8 encoding of one character, as Node's Buffer.from(s, 'utf8') produces. -/
def utf8Bytes (c : Char) : List Nat :=
  let n := c.toNat
  if n < 128 then [n]
  else if n < 2048 then [192 + n / 64, 128 + n % 64]
  else if n < 65536 then [224 + n / 4096, 128 + (n / 64) % 64, 128 + n % 64]
  else [240 + n / 262144, 128 + (n / 4096) % 64, 128 + (n / 64) % 64, 128 + n % 64]

/-- The UTF-8 bytes of a string: the model of Buffer.from(s). -/
def strBytes (s : String) : List Nat := (s.data.map utf8Bytes).flatten

/-- crypto.timingSafeEqual: defined only on buffers of equal byte length; on a
length mismatch Node raises a RangeError, modelled as the error branch. -/
def timingSafeEqual (a b : List Nat) : Except String Bool :=
  if a.length = b.length then .ok (a == b)
  else .error "RangeError: Input buffers must have the same byte length"

/-! ## SHA-256 (model of crypto.createHash('sha256')) -/

/-- Reduce to a 32-bit word. -/
def w32 (x : Nat) : Nat := x % 4294967296

def rotr (x n : Nat) : Nat := w32 ((x >>> n) ||| (x <<< (32 - n)))

def bsig0 (x : Nat) : Nat := rotr x 2 ^^^ rotr x 13 ^^^ rotr x 22
def bsig1 (x : Nat) : Nat := rotr x 6 ^^^ rotr x 11 ^^^ rotr x 25
def ssig0 (x : Nat) : Nat := rotr x 7 ^^^ rotr x 18 ^^^ (x >>> 3)
def ssig1 (x : Nat) : Nat := rotr x 17 ^^^ rotr x 19 ^^^ (x >>> 10)
def chF (x y z : Nat) : Nat := (x &&& y) ^^^ ((x ^^^ 4294967295) &&& z)
def majF (x y z : Nat) : Nat := (x &&& y) ^^^ (x &&& z) ^^^ (y &&& z)

def sha256K : List Nat :=
  [1116352408, 1899447441, 3049323471, 3921009573, 961987163,
   1508970993, 2453635748, 2870763221, 3624381080, 310598401,
   607225278, 1426881987, 1925078388, 2162078206, 2614888103,
   3248222580, 3835390401, 4022224774, 264347078, 604807628,
   770255983, 1249150122, 1555081692, 1996064986, 2554220882,
   2821834349, 2952996808, 3210313671, 3336571891, 3584528711,
   113926993, 338241895, 666307205, 773529912, 1294757372,
   1396182291, 1695183700, 1986661051, 2177026350, 2456956037,
   2730485921, 2820302411, 3259730800, 3345764771, 3516065817,
   3600352804, 4094571909, 275423344, 430227734, 506948616,
   659060556, 883997877, 958139571, 1322822218, 1537002063,
   1747873779, 1955562222, 2024104815, 2227730452, 2361852424,
   2428436474, 2756734187, 3204031479, 3329325298]

structure Hash8 where
  a : Nat
  b : Nat
  c : Nat
  d : Nat
  e : Nat
  f : Nat
  g : Nat
  h : Nat
deriving Repr, DecidableEq

def sha256Init : Hash8 :=
  ⟨1779033703,
   3144134277,
   1013904242,
   2773480762,
   1359893119,
   2600822924,
   528734635,
   1541459225⟩

/-- Big-endian 8-byte encoding of the 64-bit message-length field. -/
def be8 (n : Nat) : List Nat :=
  [(n >>> 56) % 256, (n >>> 48) % 256, (n >>> 40) % 256, (n >>> 32) % 256,
   (n >>> 24) % 256, (n >>> 16) % 256, (n >>> 8) % 256, n % 256]

/-- SHA-256 padding of a byte message. -/
def sha256Pad (msg : List Nat) : List Nat :=
  let l := msg.length
  let k := (64 - ((l + 9) % 64)) % 64
  msg ++ [128] ++ List.replicate k 0 ++ be8 (8 * l)

/-- Split into 64-byte blocks (fuel-driven so that it reduces structurally in
the kernel; one unit of fuel per byte is more than enough, and the caller
passes the padded length). -/
def chunks64 : Nat → List Nat → List (List Nat)
  | 0, _ => []
  | _, [] => []
  | fuel + 1, l => l.take 64 :: chunks64 fuel (l.drop 64)

/-- Big-endian 32-bit words from bytes. -/
def bytesToWords : List Nat → List Nat
  | b0 :: b1 :: b2 :: b3 :: rest =>
      (((b0 * 256 + b1) * 256 + b2) * 256 + b3) :: bytesToWords rest
  | _ => []

/-- One message-schedule extension step: append word n computed from the
words at n-2, n-7, n-15 and n-16. -/
def schedStep (ws : List Nat) : List Nat :=
  let n := ws.length
  ws ++ [w32 (ssig1 (ws.getD (n - 2) 0) + ws.getD (n - 7) 0 +
              ssig0 (ws.getD (n - 15) 0) + ws.getD (n - 16) 0)]

/-- Extend the 16 block words to the 64 schedule words. -/
def schedule (ws : List Nat) : List Nat :=
  (List.range 48).foldl (fun acc _ => schedStep acc) ws

def sha256Round (st : Hash8) (kw : Nat × Nat) : Hash8 :=
  let t1 := w32 (st.h + bsig1 st.e + chF st.e st.f st.g + kw.1 + kw.2)
  let t2 := w32 (bsig0 st.a + majF st.a st.b st.c)
  ⟨w32 (t1 + t2), st.a, st.b, st.c, w32 (st.d + t1), st.e, st.f, st.g⟩

def compressBlock (st : Hash8) (block : List Nat) : Hash8 :=
  let ws := schedule (bytesToWords block)
  let t := (sha256K.zip ws).foldl sha256Round st
  ⟨w32 (st.a + t.a), w32 (st.b + t.b), w32 (st.c + t.c), w32 (st.d + t.d),
   w32 (st.e + t.e), w32 (st.f + t.f), w32 (st.g + t.g), w32 (st.h + t.h)⟩

/-- Big-endian 4 bytes of a 32-bit word. -/
def wordBE4 (w : Nat) : List Nat :=
  [(w >>> 24) % 256, (w >>> 16) % 256, (w >>> 8) % 256, w % 256]

/-- SHA-256 digest (32 bytes) of a byte message. Validated below against the
FIPS 180 test vector for "abc". -/
def sha256Bytes (msg : List Nat) : List Nat :=
  let padded := sha256Pad msg
  let hf := (chunks64 padded.length padded).foldl compressBlock sha256Init
  wordBE4 hf.a ++ wordBE4 hf.b ++ wordBE4 hf.c ++ wordBE4 hf.d ++
  wordBE4 hf.e ++ wordBE4 hf.f ++ wordBE4 hf.g ++ wordBE4 hf.h

def hexDigit (n : Nat) : Char := if n < 10 then Char.ofNat (48 + n) else Char.ofNat (87 + n)

def byteHex (b : Nat) : List Char := [hexDigit ((b / 16) % 16), hexDigit (b % 16)]

/-- Lowercase-hex SHA-256 of a string:
crypto.createHash('sha256').update(s).digest('hex') of the source. -/
def sha256Hex (s : String) : String :=
  String.mk (((sha256Bytes (strBytes s)).map byteHex).flatten)

set_option maxRecDepth 40000 in
/-- The SHA-256 embedding reproduces the FIPS 180-2 test vector for "abc". -/
theorem sha256Hex_abc :
    sha256Hex "abc" = "ba7816bf8f01cfea414140de5dae2223b00361a396177a9cb410ff61f20015ad" := by
  decide

/-! ## Anti-cheat configuration (the constants of the source) -/

def MAX_METERS_PER_SECOND : ℚ := 30
def MIN_GAME_DURATION_MS : Int := 1000
def SESSION_EXPIRY_MS : Int := 3600000
/-- The hardcoded fallback secret of the source (FUNCTIONS_SECRET_KEY unset). -/
def SECRET_KEY : String := "platform-drop-secret-key-2024"

/-! ## Token generation and validation -/

/-- generateToken of the source: sha256 hex digest of
sessionId, ":", timestamp, ":", SECRET_KEY. -/
def generateToken (sessionId : String) (timestamp : Int) : String :=
  sha256Hex (sessionId ++ ":" ++ toString timestamp ++ ":" ++ SECRET_KEY)

/-- validateToken of the source: timingSafeEqual of the supplied token's bytes
against the recomputed expected token's bytes. Note this inherits
timingSafeEqual's RangeError on byte-length mismatch. -/
def validateToken (sessionId : String) (timestamp : Int) (token : String) :
    Except String Bool :=
  timingSafeEqual (strBytes token) (strBytes (generateToken sessionId timestamp))

/-- validateInitials of the source: the regex test for exactly 3 uppercase
(ASCII) letters. -/
def validateInitials (initials : String) : Bool :=
  initials.data.length == 3 && initials.data.all (fun c => 'A' ≤ c && c ≤ 'Z')

/-- validateAvatarId of the source: Number.isInteger(avatarId) and 1 ≤ avatarId ≤ 9. -/
def validateAvatarId (avatarId : ℚ) : Bool :=
  avatarId.den == 1 && decide (1 ≤ avatarId) && decide (avatarId ≤ 9)

/-! ## Data model: the two Firestore collections -/

/-- A gameSessions document. createdAt and clientIp are never read by any of
the three functions, so they are omitted from the embedding. -/
structure SessionData where
  clientTimestamp : Int
  used : Bool
  scoreSubmittedAt : Option Int := none
  finalScore : Option ℚ := none
deriving Repr, DecidableEq

/-- A leaderboard document. The ISO date string and the server timestamp are
both determined by the acceptance instant, so each is modelled as that
epoch-millisecond instant. -/
structure LeaderboardEntry where
  avatarId : ℚ
  initials : String
  distance : Int
  date : Int
  timestamp : Int
  sessionId : String
deriving Repr, DecidableEq

/-- The Firestore state the three functions touch. Document ids are the keys
of the association list and are unique. -/
structure Store where
  sessions : List (String × SessionData)
  leaderboard : List LeaderboardEntry
deriving Repr, DecidableEq

/-- The request payload of submitScore. avatarId and distance are only
checked against undefined in the source, which a typed embedding cannot
represent: both are always present here. JS truthiness of the string and
number fields is modelled below in shapeError. -/
structure SubmitRequest where
  sessionId : String
  token : String
  timestamp : Int
  avatarId : ℚ
  initials : String
  distance : ℚ
deriving Repr, DecidableEq

/-- The functions.https.HttpsError codes used by the source. -/
inductive ErrCode where
  | invalidArgument
  | notFound
  | alreadyExists
  | permissionDenied
  | deadlineExceeded
  | internal
deriving Repr, DecidableEq

structure HttpsError where
  code : ErrCode
  message : String
deriving Repr, DecidableEq

def errMissingFields : HttpsError :=
  ⟨.invalidArgument, "Missing required fields: sessionId, token, timestamp, avatarId, initials, distance"⟩
def errInvalidDistance : HttpsError := ⟨.invalidArgument, "Invalid distance value"⟩
def errAvatar : HttpsError := ⟨.invalidArgument, "Avatar ID must be between 1 and 9"⟩
def errInitials : HttpsError := ⟨.invalidArgument, "Initials must be exactly 3 uppercase letters"⟩
def errNotFound : HttpsError := ⟨.notFound, "Game session not found"⟩
def errAlreadyUsed : HttpsError := ⟨.alreadyExists, "Score already submitted for this game session"⟩
def errBadToken : HttpsError := ⟨.permissionDenied, "Invalid session token"⟩
def errExpired : HttpsError := ⟨.deadlineExceeded, "Game session has expired"⟩
def errTooShort : HttpsError := ⟨.invalidArgument, "Game duration too short"⟩
def errTooFar : HttpsError := ⟨.invalidArgument, "Score exceeds maximum possible for game duration"⟩
def errInternalSubmit : HttpsError := ⟨.internal, "Failed to submit score"⟩

/-! ## submitScore -/

/-- The field checks before the try block, in source order. A falsy (empty)
string or falsy (zero) timestamp counts as missing. -/
def shapeError (req : SubmitRequest) : Option HttpsError :=
  if req.sessionId = "" ∨ req.token = "" ∨ req.timestamp = 0 ∨ req.initials = "" then
    some errMissingFields
  else if req.distance < 0 then some errInvalidDistance
  else if ¬ validateAvatarId req.avatarId then some errAvatar
  else if ¬ validateInitials req.initials then some errInitials
  else none

/-- Math.ceil(gameDurationSeconds * MAX_METERS_PER_SECOND) with
gameDurationSeconds = gameDuration / 1000. -/
def maxPossibleScore (gameDuration : Int) : Int :=
  ⌈(gameDuration : ℚ) / 1000 * MAX_METERS_PER_SECOND⌉

/-- The validation sequence inside the try block, in source order: existence,
single-use, token binding, freshness, minimum duration, rate bound. A
RangeError raised by validateToken is caught by the surrounding catch and
resurfaces as the internal error. -/
def sessionChecks (store : Store) (req : SubmitRequest) (now : Int) :
    Except HttpsError SessionData :=
  match store.sessions.lookup req.sessionId with
  | none => .error errNotFound
  | some sessionData =>
    if sessionData.used then .error errAlreadyUsed
    else
      match validateToken req.sessionId sessionData.clientTimestamp req.token with
      | .error _ => .error errInternalSubmit
      | .ok false => .error errBadToken
      | .ok true =>
        let sessionAge := now - sessionData.clientTimestamp
        if sessionAge > SESSION_EXPIRY_MS then .error errExpired
        else
          let gameDuration := now - sessionData.clientTimestamp
          if gameDuration < MIN_GAME_DURATION_MS then .error errTooShort
          else if req.distance > ((maxPossibleScore gameDuration : Int) : ℚ) then
            .error errTooFar
          else .ok sessionData

/-- JS String.prototype.toUpperCase restricted to ASCII (the source applies it
only to strings already validated as three ASCII uppercase letters). -/
def jsToUpperAscii (s : String) : String :=
  String.mk (s.data.map (fun c => if 'a' ≤ c ∧ c ≤ 'z' then Char.ofNat (c.toNat - 32) else c))

/-- The leaderboard document written on acceptance. -/
def submitEntry (req : SubmitRequest) (now : Int) : LeaderboardEntry :=
  ⟨req.avatarId, jsToUpperAscii req.initials, ⌊req.distance⌋, now, now, req.sessionId⟩

def addEntry (store : Store) (e : LeaderboardEntry) : Store :=
  { store with leaderboard := store.leaderboard ++ [e] }

/-- The session update on acceptance: used := true, plus the audit fields. -/
def markUsed (store : Store) (sessionId : String) (now : Int) (distance : ℚ) : Store :=
  { store with
    sessions := store.sessions.map (fun p =>
      if p.1 = sessionId then
        (p.1, { p.2 with used := true, scoreSubmittedAt := some now, finalScore := some distance })
      else p) }

/-- Success/failure of each awaited Firestore operation of submitScore, in
program order: the session get, the leaderboard add, the session update. A
false flag models that operation raising, which the catch block converts to
the internal HttpsError. -/
structure DbOutcome where
  getOk : Bool := true
  addOk : Bool := true
  updateOk : Bool := true
deriving Repr, DecidableEq

/-- submitScore of the source, as a function from the request, the store
state, the clock and the persistence outcome to the response and the
resulting store state. -/
def submitScore (store : Store) (req : SubmitRequest) (now : Int) (db : DbOutcome) :
    Except HttpsError String × Store :=
  match shapeError req with
  | some e => (.error e, store)
  | none =>
    if ¬ db.getOk then (.error errInternalSubmit, store)
    else
      match sessionChecks store req now with
      | .error e => (.error e, store)
      | .ok _ =>
        if ¬ db.addOk then (.error errInternalSubmit, store)
        else
          let store1 := addEntry store (submitEntry req now)
          if ¬ db.updateOk then (.error errInternalSubmit, store1)
          else (.ok "Score submitted successfully", markUsed store1 req.sessionId now req.distance)

/-! ## startGameSession and cleanupExpiredSessions -/

/-- startGameSession of the source: persist a fresh unused session stamped
with the server clock and return its id with the matching token. -/
def startGameSession (store : Store) (now : Int) (newId : String) :
    Store × String × String × Int :=
  ({ store with sessions := store.sessions ++ [(newId, ⟨now, false, none, none⟩)] },
   newId, generateToken newId now, now)

/-- cleanupExpiredSessions of the source: delete every session whose
clientTimestamp is older than now minus the expiry window. The query has no
condition on the used flag. -/
def cleanupExpiredSessions (store : Store) (now : Int) : Store :=
  let expiryTime := now - SESSION_EXPIRY_MS
  { store with sessions := store.sessions.filter (fun p => ¬ (p.2.clientTimestamp < expiryTime)) }

/-! ## Interleaving model of concurrent submitScore calls

Each await in submitScore is a yield point: the session read plus the pure
checks form one step, the leaderboard add a second, the session update a
third. Two in-flight calls interleave their steps against the shared store. -/

inductive SubmitPhase where
  /-- About to perform the session get and the validation sequence. -/
  | ready
  /-- All checks passed; about to perform the leaderboard add. -/
  | checked
  /-- Add performed; about to perform the session update. -/
  | added
  /-- Returned to the caller. -/
  | finished (r : Except HttpsError String)
deriving Repr

structure SubmitProc where
  req : SubmitRequest
  phase : SubmitPhase
deriving Repr

/-- One step of one in-flight submitScore call (persistence assumed healthy). -/
def submitStep (now : Int) (p : SubmitProc) (store : Store) : SubmitProc × Store :=
  match p.phase with
  | .ready =>
    (match shapeError p.req with
     | some e => ({ p with phase := .finished (.error e) }, store)
     | none =>
       match sessionChecks store p.req now with
       | .error e => ({ p with phase := .finished (.error e) }, store)
       | .ok _ => ({ p with phase := .checked }, store))
  | .checked => ({ p with phase := .added }, addEntry store (submitEntry p.req now))
  | .added =>
      ({ p with phase := .finished (.ok "Score submitted successfully") },
       markUsed store p.req.sessionId now p.req.distance)
  | .finished _ => (p, store)

/-- Two concurrent submitScore calls over the shared store. -/
structure TwoSubmits where
  p1 : SubmitProc
  p2 : SubmitProc
  store : Store
deriving Repr

/-- Scheduler step: true runs the first call, false the second. -/
def twoStep (now : Int) (s : TwoSubmits) (which : Bool) : TwoSubmits :=
  if which then
    let r := submitStep now s.p1 s.store
    ⟨r.1, s.p2, r.2⟩
  else
    let r := submitStep now s.p2 s.store
    ⟨s.p1, r.1, r.2⟩

/-- Run a schedule of interleaved steps. -/
def runSchedule (now : Int) (sched : List Bool) (s : TwoSubmits) : TwoSubmits :=
  sched.foldl (twoStep now) s

/-! ## Lemmas: timing-safe comparison and token shape -/

theorem timingSafeEqual_self (x : List Nat) : timingSafeEqual x x = .ok true := by
  simp [timingSafeEqual]

theorem validateToken_self (sid : String) (ts : Int) :
    validateToken sid ts (generateToken sid ts) = .ok true :=
  timingSafeEqual_self _

theorem sha256Bytes_length (m : List Nat) : (sha256Bytes m).length = 32 := by
  simp [sha256Bytes, wordBE4]

theorem hexDigit_toNat_lt (n : Nat) (h : n < 16) : (hexDigit n).toNat < 128 := by
  interval_cases n <;> decide

theorem byteHex_ascii (b : Nat) : ∀ c ∈ byteHex b, c.toNat < 128 := by
  intro c hc
  simp [byteHex] at hc
  rcases hc with h | h <;> subst h <;>
    exact hexDigit_toNat_lt _ (Nat.mod_lt _ (by norm_num))

theorem flatten_map_byteHex_length (l : List Nat) :
    ((l.map byteHex).flatten).length = 2 * l.length := by
  induction l with
  | nil => simp
  | cons b t ih => simp [byteHex, ih]; omega

theorem sha256Hex_data_length (s : String) : (sha256Hex s).data.length = 64 := by
  show (((sha256Bytes (strBytes s)).map byteHex).flatten).length = 64
  rw [flatten_map_byteHex_length, sha256Bytes_length]

theorem sha256Hex_ascii (s : String) : ∀ c ∈ (sha256Hex s).data, c.toNat < 128 := by
  intro c hc
  have hc' : c ∈ ((sha256Bytes (strBytes s)).map byteHex).flatten := hc
  rw [List.mem_flatten] at hc'
  obtain ⟨lc, hlc, hcl⟩ := hc'
  rw [List.mem_map] at hlc
  obtain ⟨b, _, rfl⟩ := hlc
  exact byteHex_ascii b c hcl

/-! ## Lemmas: UTF-8 byte lists of ASCII and non-ASCII strings -/

theorem utf8Bytes_of_ascii (c : Char) (h : c.toNat < 128) : utf8Bytes c = [c.toNat] := by
  simp [utf8Bytes, h]

theorem utf8Bytes_nonascii (c : Char) (h : ¬ c.toNat < 128) :
    ∃ b ∈ utf8Bytes c, 128 ≤ b := by
  by_cases h2 : c.toNat < 2048
  · exact ⟨192 + c.toNat / 64, by simp [utf8Bytes, h, h2], by omega⟩
  · by_cases h3 : c.toNat < 65536
    · exact ⟨224 + c.toNat / 4096, by simp [utf8Bytes, h, h2, h3], by omega⟩
    · exact ⟨240 + c.toNat / 262144, by simp [utf8Bytes, h, h2, h3], by omega⟩

/-- strBytes over an explicit character list. -/
theorem strBytes_mk (l : List Char) : strBytes (String.mk l) = (l.map utf8Bytes).flatten := rfl

theorem strBytes_of_ascii (l : List Char) (h : ∀ c ∈ l, c.toNat < 128) :
    (l.map utf8Bytes).flatten = l.map Char.toNat := by
  induction l with
  | nil => simp
  | cons c t ih =>
    have hc : c.toNat < 128 := h c (by simp)
    simp [utf8Bytes_of_ascii c hc, ih (fun d hd => h d (by simp [hd]))]

theorem ascii_of_strBytes (l : List Char)
    (h : ∀ b ∈ (l.map utf8Bytes).flatten, b < 128) : ∀ c ∈ l, c.toNat < 128 := by
  induction l with
  | nil => simp
  | cons c t ih =>
    intro d hd
    have hsplit : ∀ b, (b ∈ utf8Bytes c ∨ b ∈ (t.map utf8Bytes).flatten) → b < 128 := by
      intro b hb
      apply h
      simp only [List.map_cons, List.flatten_cons, List.mem_append]
      exact hb
    rcases List.mem_cons.mp hd with rfl | hdt
    · by_contra hge
      obtain ⟨b, hb, hb128⟩ := utf8Bytes_nonascii d hge
      have := hsplit b (Or.inl hb)
      omega
    · exact ih (fun b hb => hsplit b (Or.inr hb)) d hdt

theorem char_toNat_inj {c d : Char} (h : c.toNat = d.toNat) : c = d :=
  Char.eq_of_val_eq (UInt32.eq_of_toBitVec_eq (BitVec.eq_of_toNat_eq h))

/-- If a string's UTF-8 bytes equal those of an all-ASCII string, the strings
are equal: every UTF-8 lead byte of a non-ASCII character is at least 128, so
the first string is forced to be all-ASCII as well, where the encoding is
plainly injective. -/
theorem strBytes_inj_of_ascii (t s : String) (hs : ∀ c ∈ s.data, c.toNat < 128)
    (h : strBytes t = strBytes s) : t = s := by
  have hsb : strBytes s = s.data.map Char.toNat := strBytes_of_ascii s.data hs
  have htlt : ∀ b ∈ (t.data.map utf8Bytes).flatten, b < 128 := by
    intro b hb
    have hb' : b ∈ strBytes s := by rw [← h]; exact hb
    rw [hsb, List.mem_map] at hb'
    obtain ⟨c, hc, rfl⟩ := hb'
    exact hs c hc
  have hta : ∀ c ∈ t.data, c.toNat < 128 := ascii_of_strBytes t.data htlt
  have htb : strBytes t = t.data.map Char.toNat := strBytes_of_ascii t.data hta
  have hmap : t.data.map Char.toNat = s.data.map Char.toNat := by
    rw [← htb, ← hsb]; exact h
  have hdata : t.data = s.data := by
    have hinj : Function.Injective Char.toNat := fun _ _ hcd => char_toNat_inj hcd
    exact List.map_injective_iff.mpr hinj hmap
  exact String.ext hdata

theorem generateToken_data_length (sid : String) (ts : Int) :
    (generateToken sid ts).data.length = 64 :=
  sha256Hex_data_length _

theorem generateToken_ascii (sid : String) (ts : Int) :
    ∀ c ∈ (generateToken sid ts).data, c.toNat < 128 :=
  sha256Hex_ascii _

theorem strBytes_generateToken_length (sid : String) (ts : Int) :
    (strBytes (generateToken sid ts)).length = 64 := by
  have h := strBytes_of_ascii (generateToken sid ts).data (generateToken_ascii sid ts)
  show ((generateToken sid ts).data.map utf8Bytes).flatten.length = 64
  rw [h, List.length_map, generateToken_data_length]

/-! ## Lemmas: the exact acceptance condition of validateToken -/

/-- validateToken returns true exactly for the recomputed expected token. -/
theorem validateToken_ok_iff (sid : String) (ts : Int) (tok : String) :
    validateToken sid ts tok = .ok true ↔ tok = generateToken sid ts := by
  constructor
  · intro h
    unfold validateToken timingSafeEqual at h
    split at h
    · have hb : (strBytes tok == strBytes (generateToken sid ts)) = true := by
        simpa using h
      have hs : strBytes tok = strBytes (generateToken sid ts) := by
        exact beq_iff_eq.mp hb
      exact strBytes_inj_of_ascii tok _ (generateToken_ascii sid ts) hs
    · simp at h
  · intro h
    subst h
    exact validateToken_self sid ts

/-- A token whose UTF-8 byte length is not 64 makes validateToken raise (the
RangeError branch of timingSafeEqual). -/
theorem validateToken_error_of_length (sid : String) (ts : Int) (tok : String)
    (h : (strBytes tok).length ≠ 64) :
    validateToken sid ts tok =
      .error "RangeError: Input buffers must have the same byte length" := by
  unfold validateToken timingSafeEqual
  rw [strBytes_generateToken_length]
  simp [h]

/-- A wrong token of the right byte length makes validateToken return false. -/
theorem validateToken_ok_false (sid : String) (ts : Int) (tok : String)
    (hlen : (strBytes tok).length = 64) (hne : tok ≠ generateToken sid ts) :
    validateToken sid ts tok = .ok false := by
  unfold validateToken timingSafeEqual
  rw [strBytes_generateToken_length, hlen]
  simp only [if_pos rfl]
  have : strBytes tok ≠ strBytes (generateToken sid ts) := by
    intro hs
    exact hne (strBytes_inj_of_ascii tok _ (generateToken_ascii sid ts) hs)
  simp [this]

/-! ## Lemmas: staged evaluation of sessionChecks -/

section Stages

variable (store : Store) (req : SubmitRequest) (now : Int) (db : DbOutcome)

theorem sessionChecks_notFound (h : store.sessions.lookup req.sessionId = none) :
    sessionChecks store req now = .error errNotFound := by
  simp [sessionChecks, h]

theorem sessionChecks_used (sd : SessionData)
    (h : store.sessions.lookup req.sessionId = some sd) (hu : sd.used = true) :
    sessionChecks store req now = .error errAlreadyUsed := by
  simp [sessionChecks, h, hu]

theorem sessionChecks_tokenRaise (sd : SessionData)
    (h : store.sessions.lookup req.sessionId = some sd) (hu : sd.used = false)
    (hlen : (strBytes req.token).length ≠ 64) :
    sessionChecks store req now = .error errInternalSubmit := by
  simp [sessionChecks, h, hu, validateToken_error_of_length _ _ _ hlen]

theorem sessionChecks_badToken (sd : SessionData)
    (h : store.sessions.lookup req.sessionId = some sd) (hu : sd.used = false)
    (hlen : (strBytes req.token).length = 64)
    (hne : req.token ≠ generateToken req.sessionId sd.clientTimestamp) :
    sessionChecks store req now = .error errBadToken := by
  simp [sessionChecks, h, hu, validateToken_ok_false _ _ _ hlen hne]

theorem sessionChecks_expired (sd : SessionData)
    (h : store.sessions.lookup req.sessionId = some sd) (hu : sd.used = false)
    (ht : req.token = generateToken req.sessionId sd.clientTimestamp)
    (hexp : now - sd.clientTimestamp > SESSION_EXPIRY_MS) :
    sessionChecks store req now = .error errExpired := by
  simp [sessionChecks, h, hu, ht, validateToken_self, hexp]

theorem sessionChecks_tooShort (sd : SessionData)
    (h : store.sessions.lookup req.sessionId = some sd) (hu : sd.used = false)
    (ht : req.token = generateToken req.sessionId sd.clientTimestamp)
    (hexp : ¬ now - sd.clientTimestamp > SESSION_EXPIRY_MS)
    (hdur : now - sd.clientTimestamp < MIN_GAME_DURATION_MS) :
    sessionChecks store req now = .error errTooShort := by
  simp [sessionChecks, h, hu, ht, validateToken_self, hexp, hdur]

theorem sessionChecks_tooFar (sd : SessionData)
    (h : store.sessions.lookup req.sessionId = some sd) (hu : sd.used = false)
    (ht : req.token = generateToken req.sessionId sd.clientTimestamp)
    (hexp : ¬ now - sd.clientTimestamp > SESSION_EXPIRY_MS)
    (hdur : ¬ now - sd.clientTimestamp < MIN_GAME_DURATION_MS)
    (hrate : req.distance > ((maxPossibleScore (now - sd.clientTimestamp) : Int) : ℚ)) :
    sessionChecks store req now = .error errTooFar := by
  simp [sessionChecks, h, hu, ht, validateToken_self, hexp, hdur, hrate]

theorem sessionChecks_pass (sd : SessionData)
    (h : store.sessions.lookup req.sessionId = some sd) (hu : sd.used = false)
    (ht : req.token = generateToken req.sessionId sd.clientTimestamp)
    (hexp : ¬ now - sd.clientTimestamp > SESSION_EXPIRY_MS)
    (hdur : ¬ now - sd.clientTimestamp < MIN_GAME_DURATION_MS)
    (hrate : ¬ req.distance > ((maxPossibleScore (now - sd.clientTimestamp) : Int) : ℚ)) :
    sessionChecks store req now = .ok sd := by
  simp [sessionChecks, h, hu, ht, validateToken_self, hexp, hdur, hrate]

/-- Everything an accepted validation sequence guarantees about the session. -/
theorem sessionChecks_ok_inversion (sd : SessionData)
    (h : sessionChecks store req now = .ok sd) :
    store.sessions.lookup req.sessionId = some sd ∧ sd.used = false ∧
    req.token = generateToken req.sessionId sd.clientTimestamp ∧
    now - sd.clientTimestamp ≤ SESSION_EXPIRY_MS ∧
    MIN_GAME_DURATION_MS ≤ now - sd.clientTimestamp ∧
    req.distance ≤ ((maxPossibleScore (now - sd.clientTimestamp) : Int) : ℚ) := by
  cases hl : store.sessions.lookup req.sessionId with
  | none => rw [sessionChecks_notFound store req now hl] at h; exact absurd h (by simp)
  | some sd' =>
    by_cases hu : sd'.used
    · rw [sessionChecks_used store req now sd' hl hu] at h
      exact absurd h (by simp)
    · replace hu : sd'.used = false := by simpa using hu
      by_cases hlen : (strBytes req.token).length = 64
      case neg =>
        rw [sessionChecks_tokenRaise store req now sd' hl hu hlen] at h
        exact absurd h (by simp)
      case pos =>
      by_cases ht : req.token = generateToken req.sessionId sd'.clientTimestamp
      case neg =>
        rw [sessionChecks_badToken store req now sd' hl hu hlen ht] at h
        exact absurd h (by simp)
      case pos =>
      by_cases hexp : now - sd'.clientTimestamp > SESSION_EXPIRY_MS
      case pos =>
        rw [sessionChecks_expired store req now sd' hl hu ht hexp] at h
        exact absurd h (by simp)
      case neg =>
      by_cases hdur : now - sd'.clientTimestamp < MIN_GAME_DURATION_MS
      case pos =>
        rw [sessionChecks_tooShort store req now sd' hl hu ht hexp hdur] at h
        exact absurd h (by simp)
      case neg =>
      by_cases hrate :
          req.distance > ((maxPossibleScore (now - sd'.clientTimestamp) : Int) : ℚ)
      case pos =>
        rw [sessionChecks_tooFar store req now sd' hl hu ht hexp hdur hrate] at h
        exact absurd h (by simp)
      case neg =>
        rw [sessionChecks_pass store req now sd' hl hu ht hexp hdur hrate] at h
        have hsd : sd' = sd := by simpa using h
        subst hsd
        exact ⟨rfl, hu, ht, by omega, by omega, by simpa using hrate⟩

/-! ## Lemmas: staged evaluation of submitScore -/

theorem submitScore_shape (e : HttpsError) (h : shapeError req = some e) :
    submitScore store req now db = (.error e, store) := by
  simp [submitScore, h]

theorem submitScore_getFail (h : shapeError req = none) (hg : db.getOk = false) :
    submitScore store req now db = (.error errInternalSubmit, store) := by
  simp [submitScore, h, hg]

theorem submitScore_checksFail (h : shapeError req = none) (hg : db.getOk = true)
    (e : HttpsError) (hc : sessionChecks store req now = .error e) :
    submitScore store req now db = (.error e, store) := by
  simp [submitScore, h, hg, hc]

theorem submitScore_addFail (h : shapeError req = none) (hg : db.getOk = true)
    (sd : SessionData) (hc : sessionChecks store req now = .ok sd)
    (ha : db.addOk = false) :
    submitScore store req now db = (.error errInternalSubmit, store) := by
  simp [submitScore, h, hg, hc, ha]

/-- Persistence fails between the two writes: the internal error is reported
with the leaderboard entry already persisted and the session left unmarked. -/
theorem submitScore_updateFail (h : shapeError req = none) (hg : db.getOk = true)
    (sd : SessionData) (hc : sessionChecks store req now = .ok sd)
    (ha : db.addOk = true) (hu : db.updateOk = false) :
    submitScore store req now db =
      (.error errInternalSubmit, addEntry store (submitEntry req now)) := by
  simp [submitScore, h, hg, hc, ha, hu]

theorem submitScore_accept (h : shapeError req = none) (hg : db.getOk = true)
    (sd : SessionData) (hc : sessionChecks store req now = .ok sd)
    (ha : db.addOk = true) (hu : db.updateOk = true) :
    submitScore store req now db =
      (.ok "Score submitted successfully",
       markUsed (addEntry store (submitEntry req now)) req.sessionId now req.distance) := by
  simp [submitScore, h, hg, hc, ha, hu]

/-- Everything a successful submitScore return guarantees. -/
theorem submitScore_ok_inversion (msg : String) (st' : Store)
    (h : submitScore store req now db = (.ok msg, st')) :
    shapeError req = none ∧ db.getOk = true ∧
    ∃ sd, sessionChecks store req now = .ok sd ∧ db.addOk = true ∧ db.updateOk = true ∧
      st' = markUsed (addEntry store (submitEntry req now)) req.sessionId now req.distance := by
  cases hs : shapeError req with
  | some e => rw [submitScore_shape store req now db e hs] at h; exact absurd h (by simp)
  | none =>
    cases hg : db.getOk with
    | false => rw [submitScore_getFail store req now db hs hg] at h; exact absurd h (by simp)
    | true =>
      cases hc : sessionChecks store req now with
      | error e =>
        rw [submitScore_checksFail store req now db hs hg e hc] at h
        exact absurd h (by simp)
      | ok sd =>
        cases ha : db.addOk with
        | false =>
          rw [submitScore_addFail store req now db hs hg sd hc ha] at h
          exact absurd h (by simp)
        | true =>
          cases hup : db.updateOk with
          | false =>
            rw [submitScore_updateFail store req now db hs hg sd hc ha hup] at h
            exact absurd h (by simp)
          | true =>
            rw [submitScore_accept store req now db hs hg sd hc ha hup] at h
            have := (Prod.mk.injEq _ _ _ _ ▸ h)
            exact ⟨rfl, rfl, sd, rfl, rfl, rfl, this.2.symm⟩

/-- On every rejection before the leaderboard add, the store is untouched. -/
theorem submitScore_error_store (e : HttpsError) (st' : Store)
    (h : submitScore store req now db = (.error e, st'))
    (hdb : db.addOk = true → db.updateOk = true) : st' = store := by
  cases hs : shapeError req with
  | some e' =>
    rw [submitScore_shape store req now db e' hs] at h
    exact ((Prod.mk.injEq _ _ _ _ ▸ h).2).symm
  | none =>
    cases hg : db.getOk with
    | false =>
      rw [submitScore_getFail store req now db hs hg] at h
      exact ((Prod.mk.injEq _ _ _ _ ▸ h).2).symm
    | true =>
      cases hc : sessionChecks store req now with
      | error e' =>
        rw [submitScore_checksFail store req now db hs hg e' hc] at h
        exact ((Prod.mk.injEq _ _ _ _ ▸ h).2).symm
      | ok sd =>
        cases ha : db.addOk with
        | false =>
          rw [submitScore_addFail store req now db hs hg sd hc ha] at h
          exact ((Prod.mk.injEq _ _ _ _ ▸ h).2).symm
        | true =>
          rw [submitScore_accept store req now db hs hg sd hc ha (hdb ha)] at h
          exact absurd h (by simp)

end Stages

/-! ## Concrete fixtures

A store holding one fresh session "s1" issued at epoch 0, and a well-formed
submission for it. token1 is the independently computed SHA-256 hex digest of
"s1:0:platform-drop-secret-key-2024"; the equation token1_eq below checks the
embedding's own hash against it. -/

def token1 : String := "1c47268cf0538c6b24db8ef5ed29109887cf53154ea1cf99b9cee7f0cca49ce4"

def sess1 : SessionData := ⟨0, false, none, none⟩

def store1 : Store := ⟨[("s1", sess1)], []⟩

def req1 : SubmitRequest := ⟨"s1", token1, 1, 1, "ABC", 10⟩

/-- The leaderboard entry an accepted req1 at now = 2000 produces. -/
def entry1 : LeaderboardEntry := ⟨1, "ABC", 10, 2000, 2000, "s1"⟩

/-- Session "s1" after consumption at now = 2000 with distance 10. -/
def sess1Used : SessionData := ⟨0, true, some 2000, some 10⟩

set_option maxRecDepth 40000 in
theorem token1_eq : generateToken "s1" 0 = token1 := by decide

theorem lookup_s1 : store1.sessions.lookup "s1" = some sess1 := by decide

theorem shape_req1 : shapeError req1 = none := by decide

theorem maxPossibleScore_2000 : maxPossibleScore 2000 = 60 := by
  norm_num [maxPossibleScore, MAX_METERS_PER_SECOND]

theorem checks_req1_2000 : sessionChecks store1 req1 2000 = .ok sess1 := by
  apply sessionChecks_pass store1 req1 2000 sess1 lookup_s1 rfl token1_eq.symm
  · decide
  · decide
  · show ¬ req1.distance > ((maxPossibleScore (2000 - sess1.clientTimestamp) : Int) : ℚ)
    have h : (2000 : Int) - sess1.clientTimestamp = 2000 := by decide
    rw [h, maxPossibleScore_2000]
    norm_num [req1]

theorem submitEntry_req1 : submitEntry req1 2000 = entry1 := by
  have hup : jsToUpperAscii "ABC" = "ABC" := by decide
  have hfl : ⌊(10 : ℚ)⌋ = 10 := by norm_num
  simp [submitEntry, req1, entry1, hup, hfl]

/-! ## C1 -/

/-- C1: a submission is accepted only if, with elapsed = now minus the stored
issue time, elapsed is at least MIN_GAME_DURATION_MS (1000 ms) and the claimed
distance is at most maxPossibleScore elapsed = ceil(elapsed/1000 * 30); and
whenever the earlier checks pass but elapsed is below the floor or the
distance above the bound, submitScore rejects (errTooShort resp. errTooFar)
and leaves the store untouched. -/
theorem submit_plausibility (store : Store) (req : SubmitRequest) (now : Int)
    (db : DbOutcome) (sd : SessionData)
    (hl : store.sessions.lookup req.sessionId = some sd) :
    (∀ msg st', submitScore store req now db = (.ok msg, st') →
        MIN_GAME_DURATION_MS ≤ now - sd.clientTimestamp ∧
        req.distance ≤ ((maxPossibleScore (now - sd.clientTimestamp) : Int) : ℚ)) ∧
    (shapeError req = none → db.getOk = true → sd.used = false →
      req.token = generateToken req.sessionId sd.clientTimestamp →
      now - sd.clientTimestamp ≤ SESSION_EXPIRY_MS →
      now - sd.clientTimestamp < MIN_GAME_DURATION_MS →
      submitScore store req now db = (.error errTooShort, store)) ∧
    (shapeError req = none → db.getOk = true → sd.used = false →
      req.token = generateToken req.sessionId sd.clientTimestamp →
      now - sd.clientTimestamp ≤ SESSION_EXPIRY_MS →
      MIN_GAME_DURATION_MS ≤ now - sd.clientTimestamp →
      ((maxPossibleScore (now - sd.clientTimestamp) : Int) : ℚ) < req.distance →
      submitScore store req now db = (.error errTooFar, store)) := by
  refine ⟨?_, ?_, ?_⟩
  · intro msg st' h
    obtain ⟨-, -, sd', hc, -, -, -⟩ := submitScore_ok_inversion store req now db msg st' h
    obtain ⟨hl', -, -, -, hdur, hrate⟩ := sessionChecks_ok_inversion store req now sd' hc
    rw [hl] at hl'
    cases hl'
    exact ⟨hdur, hrate⟩
  · intro hs hg hu ht hexp hdur
    exact submitScore_checksFail store req now db hs hg _
      (sessionChecks_tooShort store req now sd hl hu ht (not_lt.mpr hexp) hdur)
  · intro hs hg hu ht hexp hdur hrate
    exact submitScore_checksFail store req now db hs hg _
      (sessionChecks_tooFar store req now sd hl hu ht (not_lt.mpr hexp)
        (not_lt.mpr hdur) hrate)

/-- Witness for C1: the fixture submission at now = 500 ms is rejected as too
short with the store unchanged. -/
theorem submit_plausibility_witness :
    submitScore store1 req1 500 ⟨true, true, true⟩ = (.error errTooShort, store1) := by
  have h := submit_plausibility store1 req1 500 ⟨true, true, true⟩ sess1 lookup_s1
  exact h.2.1 shape_req1 rfl rfl token1_eq.symm (by decide) (by decide)

/-! ## C2 -/

/-- C2 is a code bug: the cleanup query filters only on clientTimestamp, with
no condition on the used flag (contradicting the source's own comment "that
weren't used"), so an old session with used = true is deleted. Here a consumed
session issued at epoch 0 is swept away entirely by a run at now = 7200000. -/
theorem reaper_deletes_used_session :
    cleanupExpiredSessions ⟨[("s1", ⟨0, true, some 1000, some 10⟩)], []⟩ 7200000 =
      ⟨[], []⟩ := by
  decide

/-! ## C4 -/

/-- C4 fails on the code: when the leaderboard add commits but the session
update fails, submitScore reports the internal error, yet the new
LeaderboardEntry remains in the store (and the session is left unmarked), so
this rejection path is not side-effect free. -/
theorem submit_partial_write :
    submitScore store1 req1 2000 ⟨true, true, false⟩ =
      (.error errInternalSubmit, ⟨[("s1", sess1)], [entry1]⟩) ∧
    (⟨[("s1", sess1)], [entry1]⟩ : Store) ≠ store1 := by
  constructor
  · rw [submitScore_updateFail store1 req1 2000 ⟨true, true, false⟩ shape_req1 rfl
      sess1 checks_req1_2000 rfl rfl, submitEntry_req1]
    simp [addEntry, store1]
  · intro h
    have : ([entry1] : List LeaderboardEntry) = [] := congrArg Store.leaderboard h
    simp at this

/-! ## C5 -/

/-- C5 is a code bug: validateToken is not total. crypto.timingSafeEqual
raises a RangeError whenever the supplied token's byte length differs from the
64 bytes of the expected hex digest, so a malformed token of the wrong length
makes validateToken raise instead of returning false. -/
theorem validateToken_raises_on_short_token :
    validateToken "s1" 0 "x" =
      .error "RangeError: Input buffers must have the same byte length" := by
  apply validateToken_error_of_length
  decide

/-! ## C3 -/

theorem submitStep_ready_ok (now : Int) (p : SubmitRequest) (store : Store)
    (hshape : shapeError p = none) (sd : SessionData)
    (hsc : sessionChecks store p now = .ok sd) :
    submitStep now ⟨p, .ready⟩ store = (⟨p, .checked⟩, store) := by
  simp [submitStep, hshape, hsc]

theorem submitStep_checked (now : Int) (p : SubmitRequest) (store : Store) :
    submitStep now ⟨p, .checked⟩ store =
      (⟨p, .added⟩, addEntry store (submitEntry p now)) := rfl

theorem submitStep_added (now : Int) (p : SubmitRequest) (store : Store) :
    submitStep now ⟨p, .added⟩ store =
      (⟨p, .finished (.ok "Score submitted successfully")⟩,
       markUsed store p.sessionId now p.distance) := rfl

/-- store1 after the first leaderboard add. -/
def storeA : Store := ⟨[("s1", sess1)], [entry1]⟩
/-- storeA after the first session update. -/
def storeB : Store := ⟨[("s1", sess1Used)], [entry1]⟩
/-- storeB after the second (racing) leaderboard add. -/
def storeC : Store := ⟨[("s1", sess1Used)], [entry1, entry1]⟩

theorem addEntry_store1 : addEntry store1 (submitEntry req1 2000) = storeA := by
  rw [submitEntry_req1]; rfl

theorem markUsed_storeA : markUsed storeA req1.sessionId 2000 req1.distance = storeB := by
  simp [markUsed, storeA, storeB, sess1, sess1Used, req1]

theorem addEntry_storeB : addEntry storeB (submitEntry req1 2000) = storeC := by
  rw [submitEntry_req1]; rfl

theorem markUsed_storeC : markUsed storeC req1.sessionId 2000 req1.distance = storeC := by
  simp [markUsed, storeC, sess1Used, req1]

/-- C3 is a code bug: the check of used and the two writes are three separate
awaited operations with no transactional guard, so under the interleaving
read1, read2, add1, update1, add2, update2 of two submissions of the same
session both calls return success and the one session backs two leaderboard
entries — the claimed exactly-one-winner atomicity does not hold. -/
theorem concurrent_double_submit :
    runSchedule 2000 [true, false, true, true, false, false]
        ⟨⟨req1, .ready⟩, ⟨req1, .ready⟩, store1⟩ =
      ⟨⟨req1, .finished (.ok "Score submitted successfully")⟩,
       ⟨req1, .finished (.ok "Score submitted successfully")⟩, storeC⟩ ∧
    storeC.leaderboard = [entry1, entry1] ∧ entry1.sessionId = "s1" := by
  have hready := submitStep_ready_ok 2000 req1 store1 shape_req1 sess1 checks_req1_2000
  have e1 : twoStep 2000 ⟨⟨req1, .ready⟩, ⟨req1, .ready⟩, store1⟩ true =
      ⟨⟨req1, .checked⟩, ⟨req1, .ready⟩, store1⟩ := by
    simp [twoStep, hready]
  have e2 : twoStep 2000 ⟨⟨req1, .checked⟩, ⟨req1, .ready⟩, store1⟩ false =
      ⟨⟨req1, .checked⟩, ⟨req1, .checked⟩, store1⟩ := by
    simp [twoStep, hready]
  have e3 : twoStep 2000 ⟨⟨req1, .checked⟩, ⟨req1, .checked⟩, store1⟩ true =
      ⟨⟨req1, .added⟩, ⟨req1, .checked⟩, storeA⟩ := by
    simp [twoStep, submitStep_checked, addEntry_store1]
  have e4 : twoStep 2000 ⟨⟨req1, .added⟩, ⟨req1, .checked⟩, storeA⟩ true =
      ⟨⟨req1, .finished (.ok "Score submitted successfully")⟩, ⟨req1, .checked⟩, storeB⟩ := by
    simp [twoStep, submitStep_added, markUsed_storeA]
  have e5 : twoStep 2000
      ⟨⟨req1, .finished (.ok "Score submitted successfully")⟩, ⟨req1, .checked⟩, storeB⟩ false =
      ⟨⟨req1, .finished (.ok "Score submitted successfully")⟩, ⟨req1, .added⟩, storeC⟩ := by
    simp [twoStep, submitStep_checked, addEntry_storeB]
  have e6 : twoStep 2000
      ⟨⟨req1, .finished (.ok "Score submitted successfully")⟩, ⟨req1, .added⟩, storeC⟩ false =
      ⟨⟨req1, .finished (.ok "Score submitted successfully")⟩,
       ⟨req1, .finished (.ok "Score submitted successfully")⟩, storeC⟩ := by
    simp [twoStep, submitStep_added, markUsed_storeC]
  refine ⟨?_, rfl, rfl⟩
  show List.foldl (twoStep 2000) _ _ = _
  rw [List.foldl_cons, e1, List.foldl_cons, e2, List.foldl_cons, e3, List.foldl_cons, e4,
    List.foldl_cons, e5, List.foldl_cons, e6, List.foldl_nil]

/-! ## C6 -/

/-- The fixture submission evaluated at now = 500 fails the minimum-duration
plausibility check with the store untouched. -/
theorem tooShort500 :
    submitScore store1 req1 500 ⟨true, true, true⟩ = (.error errTooShort, store1) :=
  submitScore_checksFail store1 req1 500 ⟨true, true, true⟩ shape_req1 rfl _
    (sessionChecks_tooShort store1 req1 500 sess1 lookup_s1 rfl token1_eq.symm
      (by decide) (by decide))

/-- C6 as stated is false on the code: a plausibility rejection (here the
minimum-duration floor) carries HttpsError code invalid-argument, the very
code shape validation uses. -/
theorem implausible_shares_shape_code :
    submitScore store1 { req1 with initials := "" } 500 ⟨true, true, true⟩ =
      (.error errMissingFields, store1) ∧
    submitScore store1 req1 500 ⟨true, true, true⟩ = (.error errTooShort, store1) ∧
    errTooShort.code = errMissingFields.code := by
  refine ⟨?_, tooShort500, rfl⟩
  apply submitScore_shape
  decide

theorem shapeError_mem (req : SubmitRequest) (e : HttpsError)
    (h : shapeError req = some e) :
    e ∈ [errMissingFields, errInvalidDistance, errAvatar, errInitials] := by
  unfold shapeError at h
  repeat' split at h
  all_goals simp_all

theorem sessionChecks_error_mem (store : Store) (req : SubmitRequest) (now : Int)
    (e : HttpsError) (h : sessionChecks store req now = .error e) :
    e ∈ [errNotFound, errAlreadyUsed, errInternalSubmit, errBadToken, errExpired,
         errTooShort, errTooFar] := by
  unfold sessionChecks at h
  repeat' split at h
  all_goals try (dsimp only at h; repeat' split at h)
  all_goals simp_all

/-- C6 amended: every rejection of submitScore surfaces one of eleven fixed
HttpsError constants; the codes of the not-found, already-consumed, forged,
expired, internal and invalid-input kinds are pairwise distinct, but both
plausibility rejections reuse code invalid-argument — the same code as shape
validation — rather than a distinct one. -/
theorem submit_reason_codes (store : Store) (req : SubmitRequest) (now : Int)
    (db : DbOutcome) (e : HttpsError) (st' : Store)
    (h : submitScore store req now db = (.error e, st')) :
    e ∈ [errMissingFields, errInvalidDistance, errAvatar, errInitials, errNotFound,
         errAlreadyUsed, errBadToken, errExpired, errTooShort, errTooFar,
         errInternalSubmit] ∧
    List.Pairwise (fun a b => a ≠ b)
      [errMissingFields.code, errNotFound.code, errAlreadyUsed.code, errBadToken.code,
       errExpired.code, errInternalSubmit.code] ∧
    errTooShort.code = errMissingFields.code ∧ errTooFar.code = errMissingFields.code := by
  refine ⟨?_, by decide, rfl, rfl⟩
  cases hs : shapeError req with
  | some e' =>
    rw [submitScore_shape store req now db e' hs] at h
    simp only [Prod.mk.injEq, Except.error.injEq] at h
    obtain ⟨rfl, -⟩ := h
    have hm := shapeError_mem req e' hs
    simp only [List.mem_cons, List.not_mem_nil, or_false] at hm ⊢
    tauto
  | none =>
    cases hg : db.getOk with
    | false =>
      rw [submitScore_getFail store req now db hs hg] at h
      simp only [Prod.mk.injEq, Except.error.injEq] at h
      obtain ⟨rfl, -⟩ := h
      simp
    | true =>
      cases hc : sessionChecks store req now with
      | error e' =>
        rw [submitScore_checksFail store req now db hs hg e' hc] at h
        simp only [Prod.mk.injEq, Except.error.injEq] at h
        obtain ⟨rfl, -⟩ := h
        have hm := sessionChecks_error_mem store req now e' hc
        simp only [List.mem_cons, List.not_mem_nil, or_false] at hm ⊢
        tauto
      | ok sd =>
        cases ha : db.addOk with
        | false =>
          rw [submitScore_addFail store req now db hs hg sd hc ha] at h
          simp only [Prod.mk.injEq, Except.error.injEq] at h
          obtain ⟨rfl, -⟩ := h
          simp
        | true =>
          cases hup : db.updateOk with
          | false =>
            rw [submitScore_updateFail store req now db hs hg sd hc ha hup] at h
            simp only [Prod.mk.injEq, Except.error.injEq] at h
            obtain ⟨rfl, -⟩ := h
            simp
          | true =>
            rw [submitScore_accept store req now db hs hg sd hc ha hup] at h
            exact absurd h (by simp)

/-- Witness for C6 amended, at the concrete minimum-duration rejection. -/
theorem submit_reason_codes_witness :
    errTooShort ∈ [errMissingFields, errInvalidDistance, errAvatar, errInitials,
      errNotFound, errAlreadyUsed, errBadToken, errExpired, errTooShort, errTooFar,
      errInternalSubmit] ∧
    List.Pairwise (fun a b => a ≠ b)
      [errMissingFields.code, errNotFound.code, errAlreadyUsed.code, errBadToken.code,
       errExpired.code, errInternalSubmit.code] ∧
    errTooShort.code = errMissingFields.code ∧ errTooFar.code = errMissingFields.code :=
  submit_reason_codes store1 req1 500 ⟨true, true, true⟩ errTooShort store1 tooShort500

/-! ## C8 -/

/-- C8: token binding and every other check read only the server-stored
clientTimestamp of the session; the client-supplied timestamp field is
consulted solely by the truthiness presence check, so two submissions that
differ only in (nonzero) timestamp values produce identical outcomes. -/
theorem submit_ignores_client_timestamp (store : Store) (req : SubmitRequest)
    (now : Int) (db : DbOutcome) (ts1 ts2 : Int) (h1 : ts1 ≠ 0) (h2 : ts2 ≠ 0) :
    submitScore store { req with timestamp := ts1 } now db =
    submitScore store { req with timestamp := ts2 } now db := by
  have hshape : shapeError { req with timestamp := ts1 } =
      shapeError { req with timestamp := ts2 } := by
    simp [shapeError, h1, h2]
  unfold submitScore
  rw [hshape]
  rfl

/-- Witness for C8: two fixture submissions differing only in their client
timestamp fields (5 and 7) evaluate to the same response and store. -/
theorem submit_ignores_client_timestamp_witness :
    submitScore store1 { req1 with timestamp := 5 } 2000 ⟨true, true, true⟩ =
    submitScore store1 { req1 with timestamp := 7 } 2000 ⟨true, true, true⟩ :=
  submit_ignores_client_timestamp store1 req1 2000 ⟨true, true, true⟩ 5 7
    (by decide) (by decide)

/-! ## C10 -/

/-- C10: required-field presence is decided by JS truthiness — an empty
sessionId, token or initials, or a zero timestamp, is rejected as missing
required fields for every store and every persistence outcome (so before the
session store is consulted, and never as not-found) — while distance = 0
passes the presence check and a distance-0 submission is accepted. -/
theorem submit_truthiness (store : Store) (req : SubmitRequest) (now : Int)
    (db : DbOutcome) :
    (req.sessionId = "" ∨ req.token = "" ∨ req.timestamp = 0 ∨ req.initials = "" →
      submitScore store req now db = (.error errMissingFields, store)) ∧
    submitScore store1 { req1 with distance := 0 } 2000 ⟨true, true, true⟩ =
      (.ok "Score submitted successfully",
       markUsed (addEntry store1 (submitEntry { req1 with distance := 0 } 2000))
         "s1" 2000 0) := by
  constructor
  · intro hmiss
    apply submitScore_shape
    unfold shapeError
    rw [if_pos hmiss]
  · have shape0 : shapeError { req1 with distance := 0 } = none := by decide
    have checks0 : sessionChecks store1 { req1 with distance := 0 } 2000 = .ok sess1 := by
      apply sessionChecks_pass store1 { req1 with distance := 0 } 2000 sess1 lookup_s1 rfl
        token1_eq.symm
      · decide
      · decide
      · show ¬ ({ req1 with distance := 0 } : SubmitRequest).distance >
          ((maxPossibleScore (2000 - sess1.clientTimestamp) : Int) : ℚ)
        have h : (2000 : Int) - sess1.clientTimestamp = 2000 := by decide
        rw [h, maxPossibleScore_2000]
        norm_num
    exact submitScore_accept store1 { req1 with distance := 0 } 2000 ⟨true, true, true⟩
      shape0 rfl sess1 checks0 rfl rfl

/-- Witness for C10: an empty-string sessionId is rejected as missing fields
even against a store that could not answer any lookup (all persistence flags
false), hence never as not-found. -/
theorem submit_truthiness_witness :
    submitScore store1 { req1 with sessionId := "" } 77 ⟨false, false, false⟩ =
      (.error errMissingFields, store1) :=
  (submit_truthiness store1 { req1 with sessionId := "" } 77 ⟨false, false, false⟩).1
    (Or.inl rfl)

/-! ## C9 -/

/-- C9 as stated is false on the code: with an existing unused session and a
syntactically valid request whose token has the wrong byte length, the
earliest failing check is token binding, whose kind is forged proof
(permission-denied), yet the reported code is internal — the RangeError from
timingSafeEqual is swallowed by the catch block. -/
theorem token_stage_reports_internal :
    submitScore store1 { req1 with token := "x" } 2000 ⟨true, true, true⟩ =
      (.error errInternalSubmit, store1) ∧
    errInternalSubmit.code ≠ errBadToken.code := by
  constructor
  · exact submitScore_checksFail store1 { req1 with token := "x" } 2000 ⟨true, true, true⟩
      (by decide) rfl _
      (sessionChecks_tokenRaise store1 { req1 with token := "x" } 2000 sess1 lookup_s1 rfl
        (by decide))
  · decide

/-- C9 amended: submitScore evaluates its checks in the fixed order shape
validation, session existence, single-use, token binding, freshness, minimum
duration, rate bound, and short-circuits at the first failing check with that
check's own reason — with the one exception that a token whose byte length
differs from the expected 64 makes the token-binding stage report internal
instead of forged proof. -/
theorem submit_check_order (store : Store) (req : SubmitRequest) (now : Int)
    (db : DbOutcome) :
    (∀ e, shapeError req = some e →
      submitScore store req now db = (.error e, store)) ∧
    (shapeError req = none → db.getOk = true →
      store.sessions.lookup req.sessionId = none →
      submitScore store req now db = (.error errNotFound, store)) ∧
    (∀ sd, shapeError req = none → db.getOk = true →
      store.sessions.lookup req.sessionId = some sd → sd.used = true →
      submitScore store req now db = (.error errAlreadyUsed, store)) ∧
    (∀ sd, shapeError req = none → db.getOk = true →
      store.sessions.lookup req.sessionId = some sd → sd.used = false →
      (strBytes req.token).length ≠ 64 →
      submitScore store req now db = (.error errInternalSubmit, store)) ∧
    (∀ sd, shapeError req = none → db.getOk = true →
      store.sessions.lookup req.sessionId = some sd → sd.used = false →
      (strBytes req.token).length = 64 →
      req.token ≠ generateToken req.sessionId sd.clientTimestamp →
      submitScore store req now db = (.error errBadToken, store)) ∧
    (∀ sd, shapeError req = none → db.getOk = true →
      store.sessions.lookup req.sessionId = some sd → sd.used = false →
      req.token = generateToken req.sessionId sd.clientTimestamp →
      SESSION_EXPIRY_MS < now - sd.clientTimestamp →
      submitScore store req now db = (.error errExpired, store)) ∧
    (∀ sd, shapeError req = none → db.getOk = true →
      store.sessions.lookup req.sessionId = some sd → sd.used = false →
      req.token = generateToken req.sessionId sd.clientTimestamp →
      now - sd.clientTimestamp ≤ SESSION_EXPIRY_MS →
      now - sd.clientTimestamp < MIN_GAME_DURATION_MS →
      submitScore store req now db = (.error errTooShort, store)) ∧
    (∀ sd, shapeError req = none → db.getOk = true →
      store.sessions.lookup req.sessionId = some sd → sd.used = false →
      req.token = generateToken req.sessionId sd.clientTimestamp →
      now - sd.clientTimestamp ≤ SESSION_EXPIRY_MS →
      MIN_GAME_DURATION_MS ≤ now - sd.clientTimestamp →
      ((maxPossibleScore (now - sd.clientTimestamp) : Int) : ℚ) < req.distance →
      submitScore store req now db = (.error errTooFar, store)) := by
  refine ⟨?_, ?_, ?_, ?_, ?_, ?_, ?_, ?_⟩
  · intro e hs
    exact submitScore_shape store req now db e hs
  · intro hs hg hl
    exact submitScore_checksFail store req now db hs hg _
      (sessionChecks_notFound store req now hl)
  · intro sd hs hg hl hu
    exact submitScore_checksFail store req now db hs hg _
      (sessionChecks_used store req now sd hl hu)
  · intro sd hs hg hl hu hlen
    exact submitScore_checksFail store req now db hs hg _
      (sessionChecks_tokenRaise store req now sd hl hu hlen)
  · intro sd hs hg hl hu hlen hne
    exact submitScore_checksFail store req now db hs hg _
      (sessionChecks_badToken store req now sd hl hu hlen hne)
  · intro sd hs hg hl hu ht hexp
    exact submitScore_checksFail store req now db hs hg _
      (sessionChecks_expired store req now sd hl hu ht hexp)
  · intro sd hs hg hl hu ht hexp hdur
    exact submitScore_checksFail store req now db hs hg _
      (sessionChecks_tooShort store req now sd hl hu ht (not_lt.mpr hexp) hdur)
  · intro sd hs hg hl hu ht hexp hdur hrate
    exact submitScore_checksFail store req now db hs hg _
      (sessionChecks_tooFar store req now sd hl hu ht (not_lt.mpr hexp)
        (not_lt.mpr hdur) hrate)

/-- Witness for C9 amended: an unknown sessionId with a garbage token is
reported not-found (existence precedes token binding), and a consumed session
with a perfectly valid token is reported already-consumed (single-use precedes
token binding and freshness). -/
theorem submit_check_order_witness :
    submitScore store1 { req1 with sessionId := "zz" } 2000 ⟨true, true, true⟩ =
      (.error errNotFound, store1) ∧
    submitScore ⟨[("s1", ⟨0, true, none, none⟩)], []⟩ req1 2000 ⟨true, true, true⟩ =
      (.error errAlreadyUsed, ⟨[("s1", ⟨0, true, none, none⟩)], []⟩) := by
  constructor
  · exact (submit_check_order store1 { req1 with sessionId := "zz" } 2000
      ⟨true, true, true⟩).2.1 (by decide) rfl (by decide)
  · exact (submit_check_order ⟨[("s1", ⟨0, true, none, none⟩)], []⟩ req1 2000
      ⟨true, true, true⟩).2.2.1 ⟨0, true, none, none⟩ shape_req1 rfl (by decide) rfl

/-! ## C7 -/

/-- Positional base-2^32 encoding of a character list; injective on lists of
equal length because every character code is below 2^32. -/
def encChars (l : List Char) : Nat :=
  l.foldl (fun a c => a * 4294967296 + c.toNat) 0

theorem char_toNat_lt_base (c : Char) : c.toNat < 4294967296 := by
  have h := c.val.toBitVec.isLt
  norm_num at h
  exact h

theorem encChars_aux_lt (l : List Char) :
    ∀ a : Nat, l.foldl (fun a c => a * 4294967296 + c.toNat) a <
      (a + 1) * 4294967296 ^ l.length := by
  induction l with
  | nil => intro a; simp
  | cons c t ih =>
    intro a
    have hc := char_toNat_lt_base c
    have h1 := ih (a * 4294967296 + c.toNat)
    have h2 : (a * 4294967296 + c.toNat + 1) * 4294967296 ^ t.length ≤
        ((a + 1) * 4294967296) * 4294967296 ^ t.length :=
      Nat.mul_le_mul_right _ (by omega)
    simp only [List.foldl_cons, List.length_cons]
    calc List.foldl (fun a c => a * 4294967296 + c.toNat) (a * 4294967296 + c.toNat) t
        < (a * 4294967296 + c.toNat + 1) * 4294967296 ^ t.length := h1
      _ ≤ ((a + 1) * 4294967296) * 4294967296 ^ t.length := h2
      _ = (a + 1) * 4294967296 ^ (t.length + 1) := by ring

theorem encChars_lt (l : List Char) (h : l.length ≤ 64) :
    encChars l < 4294967296 ^ 64 := by
  have h1 := encChars_aux_lt l 0
  have h2 : 4294967296 ^ l.length ≤ 4294967296 ^ 64 :=
    Nat.pow_le_pow_right (by norm_num) h
  calc encChars l < (0 + 1) * 4294967296 ^ l.length := h1
    _ = 4294967296 ^ l.length := by ring
    _ ≤ 4294967296 ^ 64 := h2

theorem encChars_inj : ∀ l1 l2 : List Char, l1.length = l2.length →
    ∀ a1 a2 : Nat,
      l1.foldl (fun a c => a * 4294967296 + c.toNat) a1 =
      l2.foldl (fun a c => a * 4294967296 + c.toNat) a2 →
      a1 = a2 ∧ l1 = l2 := by
  intro l1
  induction l1 with
  | nil =>
    intro l2 hlen a1 a2 h
    have h2 : l2 = [] := List.length_eq_zero.mp hlen.symm
    subst h2
    exact ⟨by simpa using h, rfl⟩
  | cons c1 t1 ih =>
    intro l2 hlen a1 a2 h
    cases l2 with
    | nil => simp at hlen
    | cons c2 t2 =>
      simp only [List.length_cons] at hlen
      simp only [List.foldl_cons] at h
      obtain ⟨ha, ht⟩ := ih t2 (by omega) _ _ h
      have hc1 := char_toNat_lt_base c1
      have hc2 := char_toNat_lt_base c2
      have hsplit : a1 = a2 ∧ c1.toNat = c2.toNat := by omega
      exact ⟨hsplit.1, by rw [char_toNat_inj hsplit.2, ht]⟩

/-- C7 as stated is false on the code: generateToken maps the infinitely many
possible sessionIds into the finitely many 64-character hex digests, so by
pigeonhole two distinct sessionIds share a token and verification succeeds for
a changed sessionId. (No concrete SHA-256 collision is known, which is exactly
why this negation is proved non-constructively.) -/
theorem token_collision_exists :
    ∃ sid sid' : String, ∃ ts : Int, sid ≠ sid' ∧
      validateToken sid' ts (generateToken sid ts) = .ok true := by
  have hbound : ∀ n : Nat,
      encChars (generateToken (String.mk (List.replicate n 'a')) 0).data <
        4294967296 ^ 64 := fun n =>
    encChars_lt _ (by rw [generateToken_data_length])
  obtain ⟨n, m, hnm, hf⟩ := Finite.exists_ne_map_eq_of_infinite
    (fun n : Nat =>
      (⟨encChars (generateToken (String.mk (List.replicate n 'a')) 0).data,
        hbound n⟩ : Fin (4294967296 ^ 64)))
  have henc : encChars (generateToken (String.mk (List.replicate n 'a')) 0).data =
      encChars (generateToken (String.mk (List.replicate m 'a')) 0).data :=
    congrArg Fin.val hf
  have hlen : (generateToken (String.mk (List.replicate n 'a')) 0).data.length =
      (generateToken (String.mk (List.replicate m 'a')) 0).data.length := by
    rw [generateToken_data_length, generateToken_data_length]
  obtain ⟨-, hdata⟩ := encChars_inj _ _ hlen 0 0 henc
  have htok : generateToken (String.mk (List.replicate n 'a')) 0 =
      generateToken (String.mk (List.replicate m 'a')) 0 := String.ext hdata
  refine ⟨String.mk (List.replicate n 'a'), String.mk (List.replicate m 'a'), 0, ?_, ?_⟩
  · intro h
    apply hnm
    have h2 := congrArg List.length (congrArg String.data h)
    simpa using h2
  · rw [htok]
    exact validateToken_self _ _

/-- C7 amended: generateToken is deterministic; verification succeeds exactly
for the token generated from the pair; any single-character mutation of a
valid token fails verification; and any change of sessionId or issuedAt that
changes the generated token makes verification fail (by token_collision_exists
a change of pair need not change the token, so this proviso is necessary). -/
theorem token_verification (sid : String) (ts : Int) :
    (∀ sid' ts', sid = sid' → ts = ts' →
      generateToken sid ts = generateToken sid' ts') ∧
    (∀ tok, validateToken sid ts tok = .ok true ↔ tok = generateToken sid ts) ∧
    (∀ (i : Nat) (c : Char) (hi : i < (generateToken sid ts).data.length),
      c ≠ (generateToken sid ts).data.get ⟨i, hi⟩ →
      validateToken sid ts (String.mk ((generateToken sid ts).data.set i c)) ≠ .ok true) ∧
    (∀ sid' ts', generateToken sid' ts' ≠ generateToken sid ts →
      validateToken sid' ts' (generateToken sid ts) ≠ .ok true) := by
  refine ⟨?_, ?_, ?_, ?_⟩
  · intro sid' ts' h1 h2
    rw [h1, h2]
  · intro tok
    exact validateToken_ok_iff sid ts tok
  · intro i c hi hne heq
    have h := (validateToken_ok_iff sid ts _).mp heq
    have hd : (generateToken sid ts).data.set i c = (generateToken sid ts).data :=
      congrArg String.data h
    have h1 : ((generateToken sid ts).data.set i c)[i]? = some c := by
      rw [List.getElem?_set_self]
      exact hi
    rw [hd, List.getElem?_eq_getElem hi] at h1
    have h3 : (generateToken sid ts).data[i] = c := by
      simpa using h1
    apply hne
    rw [List.get_eq_getElem]
    exact h3.symm
  · intro sid' ts' hne heq
    exact hne ((validateToken_ok_iff sid' ts' _).mp heq).symm

set_option maxRecDepth 40000 in
/-- Witness for C7 amended: the fixture token verifies for ("s1", 0), and
mutating its first character to 'z' makes verification fail. -/
theorem token_verification_witness :
    validateToken "s1" 0 token1 = .ok true ∧
    validateToken "s1" 0 (String.mk (token1.data.set 0 'z')) ≠ .ok true := by
  constructor
  · exact ((token_verification "s1" 0).2.1 token1).mpr token1_eq.symm
  · have hc : 'z' ≠ (generateToken "s1" 0).data.get
        ⟨0, by rw [generateToken_data_length]; norm_num⟩ := by decide
    have h := (token_verification "s1" 0).2.2.1 0 'z'
      (by rw [generateToken_data_length]; norm_num) hc
    rw [token1_eq] at h
    exact h

end PlatformDrop
